import Mathlib

/-!
# The planner support function `commission_cents_support`

A shallow embedding of `src/commission_cents/commission_cents.c` and the
properties of its simplification rule.

The C function receives a `Node *` (the support request), may emit
diagnostics through `ereport`, and returns a `Node *` that is either `NULL`
("no simplification") or a freshly built `Const`.  The embedding keeps
that shape: nodes are an inductive type, `ereport` appends to a log that is
threaded as state, and a list access outside the list is a `Fault`.
-/

namespace CommissionCents

/-! ## Host data model (PostgreSQL node trees) -/

/-- Object identifiers of the catalog (`Oid`, an unsigned 32-bit number). -/
abbrev Oid := Nat

/-- A `Datum`: one machine word (64 bits), kept as its unsigned value. -/
abbrev Datum := Nat

/-- Catalog constant `INT4OID` from `catalog/pg_type.h`: the type `integer`. -/
def INT4OID : Oid := 23

/-- Catalog constant `TEXTOID` from `catalog/pg_type.h`: the type `text`. -/
def TEXTOID : Oid := 25

/-- Catalog constant `NUMERICOID` from `catalog/pg_type.h`: the type `numeric`. -/
def NUMERICOID : Oid := 1700

/-- Conversion `Int32GetDatum(X)`, the cast `(Datum) X` of a signed 32-bit
value to a 64-bit unsigned word. -/
def Int32GetDatum (x : Int) : Datum := (x % 2 ^ 64).toNat

/-- Node tags (`NodeTag` in `nodes/nodes.h`) of the node kinds that occur
here: expression nodes and planner support requests. -/
inductive NodeTag where
  | T_Var
  | T_Const
  | T_Param
  | T_FuncExpr
  | T_OpExpr
  | T_SupportRequestSimplify
  | T_SupportRequestSelectivity
  | T_SupportRequestCost
  | T_SupportRequestRows
  | T_SupportRequestIndexCondition
  deriving DecidableEq, Repr

/-- The fields of a `Const` node (`nodes/primnodes.h`). -/
structure Const where
  consttype : Oid
  consttypmod : Int
  constcollid : Oid
  constlen : Int
  constvalue : Datum
  constisnull : Bool
  constbyval : Bool
  location : Int
  deriving DecidableEq, Repr

/-- Kinds of `Param` node (`ParamKind` in `nodes/primnodes.h`);
`PARAM_EXTERN` is a bound query parameter such as `$1`. -/
inductive ParamKind where
  | PARAM_EXTERN
  | PARAM_EXEC
  | PARAM_SUBLINK
  | PARAM_MULTIEXPR
  deriving DecidableEq, Repr

/-- Nodes reachable through a `Node *`: the expression nodes an argument
can be, and the support requests a support function can be handed.  A
`FuncExpr *` field is kept as the pointed-to call (function oid and
argument list). -/
inductive Node where
  | Const (c : Const)
  | Var (varno : Int) (varattno : Int) (vartype : Oid)
  | Param (paramkind : ParamKind) (paramid : Int) (paramtype : Oid)
  | FuncExpr (funcid : Oid) (funcresulttype : Oid) (args : List Node)
  | OpExpr (opno : Oid) (opresulttype : Oid) (args : List Node)
  | SupportRequestSimplify (fcall_funcid : Oid) (fcall_args : List Node)
  | SupportRequestSelectivity (funcid : Oid) (args : List Node) (is_join : Bool)
  | SupportRequestCost (funcid : Oid) (node : Option Node)
  | SupportRequestRows (funcid : Oid) (node : Node)
  | SupportRequestIndexCondition (funcid : Oid) (node : Node) (indexarg : Int)

/-- The tag stored in the first field of every node (`nodeTag(n)`). -/
def nodeTag : Node → NodeTag
  | .Const _ => .T_Const
  | .Var _ _ _ => .T_Var
  | .Param _ _ _ => .T_Param
  | .FuncExpr _ _ _ => .T_FuncExpr
  | .OpExpr _ _ _ => .T_OpExpr
  | .SupportRequestSimplify _ _ => .T_SupportRequestSimplify
  | .SupportRequestSelectivity _ _ _ => .T_SupportRequestSelectivity
  | .SupportRequestCost _ _ => .T_SupportRequestCost
  | .SupportRequestRows _ _ => .T_SupportRequestRows
  | .SupportRequestIndexCondition _ _ _ => .T_SupportRequestIndexCondition

/-- The test `IsA(n, tag)`. -/
def IsA (n : Node) (tag : NodeTag) : Bool := nodeTag n == tag

/-- The null pointer returned for "no simplification". -/
def NULL : Option Node := none

/-! ## Diagnostics and faults -/

/-- Severity levels of `ereport` (`utils/elog.h`), lowest first. -/
inductive ErrLevel where
  | DEBUG
  | LOG
  | INFO
  | NOTICE
  | WARNING
  | ERROR
  | FATAL
  | PANIC
  deriving DecidableEq, Repr

/-- One emitted diagnostic: `ereport(elevel, (errmsg(message)))`. -/
structure ErrorData where
  elevel : ErrLevel
  message : String
  deriving DecidableEq, Repr

/-- What C leaves undefined and the embedding makes explicit. -/
inductive Fault where
  /-- Reading a list cell that the list does not have. -/
  | list_out_of_range
  /-- Reading a field through a cast to a struct the node is not. -/
  | bad_cast
  deriving DecidableEq, Repr

/-- Computations of the support function: a diagnostics log threaded as
state over a result that is either a value or a fault. -/
abbrev PG := StateT (List ErrorData) (Except Fault)

/-- The call `ereport(elevel, (errmsg(message)))` for a level below `ERROR`:
the message goes to the log and control continues. -/
def ereport (elevel : ErrLevel) (message : String) : PG Unit :=
  modify fun log => log ++ [{ elevel := elevel, message := message }]

/-- List length `list_length(l)`. -/
def list_length (l : List Node) : Nat := l.length

/-- The access `lsecond(l)`: the second cell (index 1) of the list, a fault
when the list has fewer than two cells. -/
def lsecond (l : List Node) : PG Node :=
  match l.get? 1 with
  | some n => pure n
  | none => throw Fault.list_out_of_range

/-- The read `req->fcall->args` after the cast of the request to
`SupportRequestSimplify *`. -/
def fcall_args (rawreq : Node) : PG (List Node) :=
  match rawreq with
  | .SupportRequestSimplify _ args => pure args
  | _ => throw Fault.bad_cast

/-- Detoasting `PG_DETOAST_DATUM`: a datum stands for its detoasted value, so
the step leaves it as it is. -/
def PG_DETOAST_DATUM (d : Datum) : Datum := d

/-- Node constructor `makeConst` (`nodes/makefuncs.c`): fills the fields of a
new `Const`, detoasting a non-null varlena value, with location "unknown". -/
def makeConst (consttype : Oid) (consttypmod : Int) (constcollid : Oid)
    (constlen : Int) (constvalue : Datum) (constisnull : Bool)
    (constbyval : Bool) : Const :=
  let constvalue :=
    if !constisnull && constlen == -1 then PG_DETOAST_DATUM constvalue else constvalue
  { consttype := consttype, consttypmod := consttypmod, constcollid := constcollid,
    constlen := constlen, constvalue := constvalue, constisnull := constisnull,
    constbyval := constbyval, location := -1 }

/-! ## The support function -/

/-- The function `commission_cents_support` of
`src/commission_cents/commission_cents.c`, lines 31-87. -/
def commission_cents_support (rawreq : Node) : PG (Option Node) := do
  -- We only handle Simplify support requests.
  if !IsA rawreq .T_SupportRequestSimplify then
    return NULL
  let args ← fcall_args rawreq
  if list_length args != 2 then
    ereport .WARNING
      ("commission_cents_support called with " ++ toString (list_length args)
        ++ " args but expected 2")
    return NULL
  -- Extract salesperson id from the arguments of the call.
  let node ← lsecond args
  if let .Const c := node then
    if c.consttype != INT4OID then
      ereport .WARNING "commission_cents_support called with non-INT4 parameter"
      return NULL
    if c.constisnull then
      let ret := makeConst INT4OID (-1) 0 4 (Int32GetDatum 0) false true
      ereport .NOTICE "commission_cents_support inlining a constant zero"
      return some (Node.Const ret)
  ereport .NOTICE "commission_cents_support called with non-constant parameter"
  return NULL

/-! ## Runtime values, for comparing a plan before and after the rewrite -/

/-- Conversion `DatumGetInt32(X)`: the low 32 bits of the word, read as a
signed number. -/
def DatumGetInt32 (d : Datum) : Int :=
  let w : Int := (d % 2 ^ 32 : Nat)
  if w < 2 ^ 31 then w else w - 2 ^ 32

/-- The SQL value an `integer` constant yields when the plan runs
(`none` is SQL NULL): the executor returns the stored datum unless the
null flag is set. -/
def evalConstInt4 (c : Const) : Option Int :=
  if c.constisnull then none else some (DatumGetInt32 c.constvalue)

/-- Modelled from the spec: the runtime function
`commission_cents(rate, salesperson_id)` that the rule is attached to; its
definition is not among the source files.  The spec gives: "no salesperson
(NULL id) unconditionally means zero commission, independent of the rate
argument", and a present salesperson "requires the real computation", which
is the parameter `real` here.  `none` is SQL NULL. -/
def commission_cents {Numeric : Type} (real : Option Numeric → Int → Option Int)
    (rate : Option Numeric) (salesperson_id : Option Int) : Option Int :=
  match salesperson_id with
  | none => some 0
  | some id => real rate id

/-! ## Sample nodes -/

/-- The literal `NULL::int`. -/
def sampleNullInt4 : Const :=
  { consttype := INT4OID, consttypmod := -1, constcollid := 0, constlen := 4,
    constvalue := 0, constisnull := true, constbyval := true, location := 40 }

/-- The literal `42`. -/
def sampleInt4 : Const :=
  { consttype := INT4OID, consttypmod := -1, constcollid := 0, constlen := 4,
    constvalue := 42, constisnull := false, constbyval := true, location := 40 }

/-- The literal `NULL::text`. -/
def sampleNullText : Const :=
  { consttype := TEXTOID, consttypmod := -1, constcollid := 100, constlen := -1,
    constvalue := 0, constisnull := true, constbyval := false, location := 40 }

/-- The literal `0.05`, a `numeric` held by reference. -/
def sampleRate : Node :=
  Node.Const
    { consttype := NUMERICOID, consttypmod := -1, constcollid := 0, constlen := -1,
      constvalue := 94270000, constisnull := false, constbyval := false, location := 33 }

/-- The constant the rule builds: `makeConst(INT4OID, -1, 0, 4, 0, false, true)`. -/
def zeroInt4 : Const :=
  { consttype := INT4OID, consttypmod := -1, constcollid := 0, constlen := 4,
    constvalue := 0, constisnull := false, constbyval := true, location := -1 }

/-- A cost request about the one-argument call `commission_cents(0.05)`. -/
def sampleCostRequest : Node :=
  Node.SupportRequestCost 16385 (some (Node.FuncExpr 16385 INT4OID [sampleRate]))

/-- A row-estimate request about the call `commission_cents(0.05, NULL::int)`. -/
def sampleRowsRequest : Node :=
  Node.SupportRequestRows 16385
    (Node.FuncExpr 16385 INT4OID [sampleRate, Node.Const sampleNullInt4])

/-- The literal `NULL::int` as another parse would store it: the same type and
null flag as `sampleNullInt4`, every other field different. -/
def sampleNullInt4Other : Const :=
  { consttype := INT4OID, consttypmod := 7, constcollid := 100, constlen := -1,
    constvalue := 3735928559, constisnull := true, constbyval := false, location := 12 }

/-- A column reference `s.id` of type `integer`. -/
def sampleColumn : Node := Node.Var 1 1 INT4OID

/-! ## Severity order and repeated invocation -/

/-- Rank of a severity level in the order of `utils/elog.h`, lowest first. -/
def ErrLevel.severity : ErrLevel → Nat
  | .DEBUG => 0
  | .LOG => 1
  | .INFO => 2
  | .NOTICE => 3
  | .WARNING => 4
  | .ERROR => 5
  | .FATAL => 6
  | .PANIC => 7

/-- The planner offering the same request to the rule twice in succession; the
second invocation runs in the state the first one left. -/
def invoke_twice (rawreq : Node) : PG (Option Node × Option Node) := do
  let first ← commission_cents_support rawreq
  let second ← commission_cents_support rawreq
  return (first, second)

/-! ## The branches of the function, one lemma each -/

theorem isA_simplify_false {rawreq : Node}
    (h : nodeTag rawreq ≠ NodeTag.T_SupportRequestSimplify) :
    IsA rawreq NodeTag.T_SupportRequestSimplify = false := by
  simp [IsA, h]

theorem support_other_request (rawreq : Node) (log : List ErrorData)
    (h : nodeTag rawreq ≠ NodeTag.T_SupportRequestSimplify) :
    (commission_cents_support rawreq).run log = Except.ok (NULL, log) := by
  simp [commission_cents_support, isA_simplify_false h]
  rfl

theorem support_arity (funcid : Oid) (args : List Node) (log : List ErrorData)
    (h : args.length ≠ 2) :
    (commission_cents_support (Node.SupportRequestSimplify funcid args)).run log
      = Except.ok (NULL, log ++ [
          { elevel := ErrLevel.WARNING,
            message := "commission_cents_support called with " ++ toString args.length
              ++ " args but expected 2" }]) := by
  simp [commission_cents_support, IsA, nodeTag, fcall_args, list_length, h, ereport]
  rfl

theorem support_not_const (funcid : Oid) (a1 node : Node) (log : List ErrorData)
    (h : nodeTag node ≠ NodeTag.T_Const) :
    (commission_cents_support (Node.SupportRequestSimplify funcid [a1, node])).run log
      = Except.ok (NULL, log ++ [
          { elevel := ErrLevel.NOTICE,
            message := "commission_cents_support called with non-constant parameter" }]) := by
  cases node <;> simp [nodeTag] at h <;>
    simp [commission_cents_support, IsA, nodeTag, fcall_args, list_length, ereport, lsecond] <;>
    rfl

theorem support_wrong_type (funcid : Oid) (a1 : Node) (c : Const) (log : List ErrorData)
    (h : c.consttype ≠ INT4OID) :
    (commission_cents_support (Node.SupportRequestSimplify funcid [a1, Node.Const c])).run log
      = Except.ok (NULL, log ++ [
          { elevel := ErrLevel.WARNING,
            message := "commission_cents_support called with non-INT4 parameter" }]) := by
  simp [commission_cents_support, IsA, nodeTag, fcall_args, list_length, ereport, lsecond, h]
  rfl

theorem support_not_null (funcid : Oid) (a1 : Node) (c : Const) (log : List ErrorData)
    (h : c.consttype = INT4OID) (hn : c.constisnull = false) :
    (commission_cents_support (Node.SupportRequestSimplify funcid [a1, Node.Const c])).run log
      = Except.ok (NULL, log ++ [
          { elevel := ErrLevel.NOTICE,
            message := "commission_cents_support called with non-constant parameter" }]) := by
  simp [commission_cents_support, IsA, nodeTag, fcall_args, list_length, ereport, lsecond, h, hn]
  rfl

theorem support_null (funcid : Oid) (a1 : Node) (c : Const) (log : List ErrorData)
    (h : c.consttype = INT4OID) (hn : c.constisnull = true) :
    (commission_cents_support (Node.SupportRequestSimplify funcid [a1, Node.Const c])).run log
      = Except.ok (some (Node.Const zeroInt4), log ++ [
          { elevel := ErrLevel.NOTICE,
            message := "commission_cents_support inlining a constant zero" }]) := by
  simp [commission_cents_support, IsA, nodeTag, fcall_args, list_length, ereport, lsecond, h, hn]
  rfl

theorem args_two {args : List Node} {node : Node} (hlen : list_length args = 2)
    (hsecond : args.get? 1 = some node) : ∃ a1, args = [a1, node] := by
  match args, hlen, hsecond with
  | [a1, b], _, h2 =>
    refine ⟨a1, ?_⟩
    simp at h2
    rw [h2]

theorem const_of_tag {node : Node} (h : nodeTag node = NodeTag.T_Const) :
    ∃ c, node = Node.Const c := by
  cases node <;> simp [nodeTag] at h
  exact ⟨_, rfl⟩

theorem simplify_of_tag {rawreq : Node}
    (h : nodeTag rawreq = NodeTag.T_SupportRequestSimplify) :
    ∃ funcid args, rawreq = Node.SupportRequestSimplify funcid args := by
  cases rawreq <;> simp [nodeTag] at h
  exact ⟨_, _, rfl⟩

/-! ## The success branch -/

/-- C1: for every Simplify request whose call has exactly two arguments, the
second one a `Const` of declared type `INT4OID` with the null flag set, the
function returns a replacement, and the replacement is the constant with type
`INT4OID`, typmod -1, collation 0, length 4, value 0, not null, by value; one
NOTICE saying that a constant zero is inlined is emitted. -/
theorem null_int4_is_replaced_by_zero (funcid : Oid) (args : List Node) (c : Const)
    (log : List ErrorData)
    (hlen : list_length args = 2) (hsecond : args.get? 1 = some (Node.Const c))
    (htype : c.consttype = INT4OID) (hnull : c.constisnull = true) :
    (commission_cents_support (Node.SupportRequestSimplify funcid args)).run log
      = Except.ok
          (some (Node.Const
            { consttype := INT4OID, consttypmod := -1, constcollid := 0, constlen := 4,
              constvalue := 0, constisnull := false, constbyval := true, location := -1 }),
           log ++ [
            { elevel := ErrLevel.NOTICE,
              message := "commission_cents_support inlining a constant zero" }]) := by
  obtain ⟨a1, rfl⟩ := args_two hlen hsecond
  exact support_null funcid a1 c log htype hnull

/-- Witness of C1: the call `commission_cents(0.05, NULL::int)`. -/
theorem null_int4_is_replaced_by_zero_witness :
    (commission_cents_support
        (Node.SupportRequestSimplify 16385 [sampleRate, Node.Const sampleNullInt4])).run []
      = Except.ok
          (some (Node.Const
            { consttype := INT4OID, consttypmod := -1, constcollid := 0, constlen := 4,
              constvalue := 0, constisnull := false, constbyval := true, location := -1 }),
           [] ++ [
            { elevel := ErrLevel.NOTICE,
              message := "commission_cents_support inlining a constant zero" }]) :=
  null_int4_is_replaced_by_zero 16385 [sampleRate, Node.Const sampleNullInt4] sampleNullInt4 []
    rfl rfl rfl rfl

/-- C2: whenever the function returns a replacement, the request is a Simplify
request whose call has exactly two arguments, the second one a `Const` of type
`INT4OID` with the null flag set; and on a two-argument call a second argument
that is not a `Const`, a `Const` that is not null, and a `Const` of another
type each give "no simplification". -/
theorem replacement_only_for_null_int4 (funcid : Oid) (a1 : Node) (log : List ErrorData) :
    (∀ (rawreq ret : Node) (log2 : List ErrorData),
        (commission_cents_support rawreq).run log = Except.ok (some ret, log2) →
        nodeTag rawreq = NodeTag.T_SupportRequestSimplify ∧
        ∃ (fid : Oid) (args : List Node) (c : Const),
          rawreq = Node.SupportRequestSimplify fid args ∧ list_length args = 2 ∧
          args.get? 1 = some (Node.Const c) ∧ c.consttype = INT4OID ∧ c.constisnull = true) ∧
    (∀ node : Node, nodeTag node ≠ NodeTag.T_Const →
        ∃ log2, (commission_cents_support
          (Node.SupportRequestSimplify funcid [a1, node])).run log = Except.ok (NULL, log2)) ∧
    (∀ c : Const, c.constisnull = false →
        ∃ log2, (commission_cents_support
          (Node.SupportRequestSimplify funcid [a1, Node.Const c])).run log
            = Except.ok (NULL, log2)) ∧
    (∀ c : Const, c.consttype ≠ INT4OID →
        ∃ log2, (commission_cents_support
          (Node.SupportRequestSimplify funcid [a1, Node.Const c])).run log
            = Except.ok (NULL, log2)) := by
  refine ⟨?_, ?_, ?_, ?_⟩
  · intro rawreq ret log2 h
    by_cases htag : nodeTag rawreq = NodeTag.T_SupportRequestSimplify
    · refine ⟨htag, ?_⟩
      obtain ⟨fid, args, rfl⟩ := simplify_of_tag htag
      by_cases hlen : args.length = 2
      · match args, hlen with
        | [b1, node], _ =>
          by_cases hc : nodeTag node = NodeTag.T_Const
          · obtain ⟨c, rfl⟩ := const_of_tag hc
            by_cases ht : c.consttype = INT4OID
            · cases hn : c.constisnull
              · rw [support_not_null fid b1 c log ht hn] at h
                simp [NULL] at h
              · exact ⟨fid, [b1, Node.Const c], c, rfl, rfl, rfl, ht, hn⟩
            · rw [support_wrong_type fid b1 c log ht] at h
              simp [NULL] at h
          · rw [support_not_const fid b1 node log hc] at h
            simp [NULL] at h
      · rw [support_arity fid args log hlen] at h
        simp [NULL] at h
    · rw [support_other_request rawreq log htag] at h
      simp [NULL] at h
  · intro node hnode
    exact ⟨_, support_not_const funcid a1 node log hnode⟩
  · intro c hn
    by_cases ht : c.consttype = INT4OID
    · exact ⟨_, support_not_null funcid a1 c log ht hn⟩
    · exact ⟨_, support_wrong_type funcid a1 c log ht⟩
  · intro c ht
    exact ⟨_, support_wrong_type funcid a1 c log ht⟩

/-- Witness of C2: the replacement returned for `commission_cents(0.05, NULL::int)`
comes from a two-argument Simplify request with a null `INT4OID` constant. -/
theorem replacement_only_for_null_int4_witness :
    nodeTag (Node.SupportRequestSimplify 16385 [sampleRate, Node.Const sampleNullInt4])
        = NodeTag.T_SupportRequestSimplify ∧
    ∃ (fid : Oid) (args : List Node) (c : Const),
      Node.SupportRequestSimplify 16385 [sampleRate, Node.Const sampleNullInt4]
        = Node.SupportRequestSimplify fid args ∧ list_length args = 2 ∧
      args.get? 1 = some (Node.Const c) ∧ c.consttype = INT4OID ∧ c.constisnull = true :=
  (replacement_only_for_null_int4 16385 sampleRate []).1
    (Node.SupportRequestSimplify 16385 [sampleRate, Node.Const sampleNullInt4])
    (Node.Const zeroInt4)
    [{ elevel := ErrLevel.NOTICE,
       message := "commission_cents_support inlining a constant zero" }]
    rfl

/-! ## Soundness of the replacement -/

/-- C3: when the second argument of the call is a literal NULL of type
`INT4OID`, then for every first argument expression and every runtime value
`rate` of it (SQL NULL included) the replacement that is returned, run as a
plan, yields the non-null integer 0, which is what `commission_cents` yields on
`rate` and the value of that literal: both plans give the same result. -/
theorem replacement_agrees_with_commission_cents {Numeric : Type}
    (real : Option Numeric → Int → Option Int) (rate : Option Numeric)
    (funcid : Oid) (a1 : Node) (c : Const) (log : List ErrorData)
    (htype : c.consttype = INT4OID) (hnull : c.constisnull = true) :
    ∃ (ret : Const) (log2 : List ErrorData),
      (commission_cents_support (Node.SupportRequestSimplify funcid [a1, Node.Const c])).run log
        = Except.ok (some (Node.Const ret), log2) ∧
      ret.consttype = INT4OID ∧
      evalConstInt4 ret = some 0 ∧
      evalConstInt4 ret = commission_cents real rate (evalConstInt4 c) := by
  refine ⟨zeroInt4, _, support_null funcid a1 c log htype hnull, rfl, rfl, ?_⟩
  simp [evalConstInt4, hnull, commission_cents, zeroInt4, DatumGetInt32]

/-- Witness of C3: `commission_cents(NULL, NULL::int)`, with a computation for
present salespeople that would give 7. -/
theorem replacement_agrees_with_commission_cents_witness :
    ∃ (ret : Const) (log2 : List ErrorData),
      (commission_cents_support
          (Node.SupportRequestSimplify 16385 [sampleRate, Node.Const sampleNullInt4])).run []
        = Except.ok (some (Node.Const ret), log2) ∧
      ret.consttype = INT4OID ∧
      evalConstInt4 ret = some 0 ∧
      evalConstInt4 ret
        = commission_cents (fun (_ : Option Rat) (_ : Int) => some 7) none
            (evalConstInt4 sampleNullInt4) :=
  replacement_agrees_with_commission_cents (fun (_ : Option Rat) (_ : Int) => some 7) none
    16385 sampleRate sampleNullInt4 [] rfl rfl

/-! ## Requests of another kind -/

/-- C4: for every request whose node tag is not `T_SupportRequestSimplify` the
function returns `NULL` and leaves the diagnostics log as it was; the outcome is
the same for every such request, whatever call and arguments it carries. -/
theorem other_request_kinds_are_ignored (rawreq : Node) (log : List ErrorData)
    (h : nodeTag rawreq ≠ NodeTag.T_SupportRequestSimplify) :
    (commission_cents_support rawreq).run log = Except.ok (NULL, log) ∧
    ∀ rawreq2 : Node, nodeTag rawreq2 ≠ NodeTag.T_SupportRequestSimplify →
      (commission_cents_support rawreq2).run log = (commission_cents_support rawreq).run log := by
  refine ⟨support_other_request rawreq log h, ?_⟩
  intro rawreq2 h2
  rw [support_other_request rawreq log h, support_other_request rawreq2 log h2]

/-- Witness of C4: a cost request about a one-argument call is answered with
`NULL` and no diagnostic, like a row-estimate request about a two-argument
call. -/
theorem other_request_kinds_are_ignored_witness :
    (commission_cents_support sampleCostRequest).run [] = Except.ok (NULL, []) ∧
    ∀ rawreq2 : Node, nodeTag rawreq2 ≠ NodeTag.T_SupportRequestSimplify →
      (commission_cents_support rawreq2).run []
        = (commission_cents_support sampleCostRequest).run [] :=
  other_request_kinds_are_ignored sampleCostRequest [] (by decide)

/-- Counterexample to C5: a row-estimate request is not a Simplify request, and
the function returns `NULL` for it without any diagnostic, so no WARNING is
emitted. -/
theorem wrong_request_kind_warning_counterexample :
    nodeTag sampleRowsRequest ≠ NodeTag.T_SupportRequestSimplify ∧
    (commission_cents_support sampleRowsRequest).run [] = Except.ok (NULL, []) ∧
    ¬ ∃ (ret : Option Node) (log2 : List ErrorData) (d : ErrorData),
        (commission_cents_support sampleRowsRequest).run [] = Except.ok (ret, log2) ∧
        d ∈ log2 ∧ d.elevel = ErrLevel.WARNING := by
  refine ⟨by decide, rfl, ?_⟩
  rintro ⟨ret, log2, d, hrun, hd, _⟩
  rw [support_other_request sampleRowsRequest [] (by decide)] at hrun
  cases hrun
  simp at hd

/-- C5, amended: a request of another kind is not logged.  For every request
whose kind is not Simplify the function returns normally with "no
simplification", and the diagnostics it emits are none, so none of them is a
WARNING. -/
theorem wrong_request_kind_is_silent (rawreq : Node) (log : List ErrorData)
    (h : nodeTag rawreq ≠ NodeTag.T_SupportRequestSimplify) :
    ∃ emitted : List ErrorData,
      (commission_cents_support rawreq).run log = Except.ok (NULL, log ++ emitted) ∧
      emitted = [] ∧ ∀ d ∈ emitted, d.elevel ≠ ErrLevel.WARNING := by
  refine ⟨[], ?_, rfl, ?_⟩
  · simpa using support_other_request rawreq log h
  · intro d hd
    simp at hd

/-- Witness of C5, amended: a selectivity request. -/
theorem wrong_request_kind_is_silent_witness :
    ∃ emitted : List ErrorData,
      (commission_cents_support
          (Node.SupportRequestSelectivity 16385 [sampleRate] false)).run []
        = Except.ok (NULL, [] ++ emitted) ∧
      emitted = [] ∧ ∀ d ∈ emitted, d.elevel ≠ ErrLevel.WARNING :=
  wrong_request_kind_is_silent (Node.SupportRequestSelectivity 16385 [sampleRate] false) []
    (by decide)

/-! ## The arity guard -/

/-- C6: for every Simplify request whose call has `n` arguments with `n ≠ 2`,
the function returns "no simplification" and emits one WARNING whose message
gives `n` as the count found and 2 as the count expected, whatever the
arguments are. -/
theorem wrong_arity_is_warned (funcid : Oid) (args : List Node) (n : Nat)
    (log : List ErrorData) (hn : list_length args = n) (h : n ≠ 2) :
    (commission_cents_support (Node.SupportRequestSimplify funcid args)).run log
      = Except.ok (NULL, log ++ [
          { elevel := ErrLevel.WARNING,
            message := "commission_cents_support called with " ++ toString n
              ++ " args but expected 2" }]) := by
  subst hn
  exact support_arity funcid args log h

/-- Witness of C6: three arguments, the one at index 1 a null `INT4OID`
constant; the message reads "called with 3 args but expected 2". -/
theorem wrong_arity_is_warned_witness :
    (commission_cents_support
        (Node.SupportRequestSimplify 16385
          [sampleRate, Node.Const sampleNullInt4, Node.Const sampleInt4])).run []
      = Except.ok (NULL, [] ++ [
          { elevel := ErrLevel.WARNING,
            message := "commission_cents_support called with " ++ toString 3
              ++ " args but expected 2" }]) ∧
    "commission_cents_support called with " ++ toString 3 ++ " args but expected 2"
      = "commission_cents_support called with 3 args but expected 2" :=
  ⟨wrong_arity_is_warned 16385
      [sampleRate, Node.Const sampleNullInt4, Node.Const sampleInt4] 3 [] rfl (by decide),
   by decide⟩

/-- C7: the function never reads past the arguments.  The access `lsecond`
faults exactly on lists with fewer than two cells, yet on every request and
every argument list the function returns normally; on a list of length 2 the
access yields a cell; and when the length is not 2 the outcome depends on the
length alone, not on any cell. -/
theorem second_argument_read_is_in_range (rawreq : Node) (log : List ErrorData) :
    (∃ (ret : Option Node) (log2 : List ErrorData),
        (commission_cents_support rawreq).run log = Except.ok (ret, log2)) ∧
    (∀ args : List Node,
        (lsecond args).run log = Except.error Fault.list_out_of_range ↔ list_length args < 2) ∧
    (∀ (funcid : Oid) (args : List Node), rawreq = Node.SupportRequestSimplify funcid args →
        list_length args = 2 → ∃ node, (lsecond args).run log = Except.ok (node, log)) ∧
    (∀ (funcid : Oid) (args args2 : List Node), rawreq = Node.SupportRequestSimplify funcid args →
        list_length args ≠ 2 → list_length args2 = list_length args →
        (commission_cents_support (Node.SupportRequestSimplify funcid args2)).run log
          = (commission_cents_support rawreq).run log) := by
  refine ⟨?_, ?_, ?_, ?_⟩
  · by_cases htag : nodeTag rawreq = NodeTag.T_SupportRequestSimplify
    · obtain ⟨fid, args, rfl⟩ := simplify_of_tag htag
      by_cases hlen : args.length = 2
      · match args, hlen with
        | [b1, node], _ =>
          by_cases hc : nodeTag node = NodeTag.T_Const
          · obtain ⟨c, rfl⟩ := const_of_tag hc
            by_cases ht : c.consttype = INT4OID
            · cases hn : c.constisnull
              · exact ⟨_, _, support_not_null fid b1 c log ht hn⟩
              · exact ⟨_, _, support_null fid b1 c log ht hn⟩
            · exact ⟨_, _, support_wrong_type fid b1 c log ht⟩
          · exact ⟨_, _, support_not_const fid b1 node log hc⟩
      · exact ⟨_, _, support_arity fid args log hlen⟩
    · exact ⟨_, _, support_other_request rawreq log htag⟩
  · intro args
    match args with
    | [] => simp [lsecond, list_length]; rfl
    | [_] => simp [lsecond, list_length]; rfl
    | _ :: b :: _ =>
      simp [lsecond, list_length]
      constructor
      · intro h
        cases h
      · intro h
        omega
  · intro funcid args _ hlen
    match args, hlen with
    | [b1, node], _ => exact ⟨node, rfl⟩
  · intro funcid args args2 hreq hlen hlen2
    subst hreq
    have h2 : args2.length ≠ 2 := by
      simp only [list_length] at hlen hlen2
      omega
    rw [support_arity funcid args log hlen, support_arity funcid args2 log h2]
    simp only [list_length] at hlen2
    rw [hlen2]

/-- Witness of C7: the empty argument list and the one-argument list, where
the access would fault and the function returns the arity warning, and the list
of `commission_cents(0.05, NULL::int)`, where the access yields the null
constant. -/
theorem second_argument_read_is_in_range_witness :
    (lsecond []).run [] = Except.error Fault.list_out_of_range ∧
    (∃ (ret : Option Node) (log2 : List ErrorData),
      (commission_cents_support (Node.SupportRequestSimplify 16385 [])).run []
        = Except.ok (ret, log2)) ∧
    (∃ node, (lsecond [sampleRate, Node.Const sampleNullInt4]).run [] = Except.ok (node, [])) ∧
    (commission_cents_support (Node.SupportRequestSimplify 16385 [Node.Const sampleNullInt4])).run []
      = (commission_cents_support (Node.SupportRequestSimplify 16385 [sampleRate])).run [] :=
  ⟨((second_argument_read_is_in_range (Node.SupportRequestSimplify 16385 []) []).2.1 []).2
      (by decide),
   (second_argument_read_is_in_range (Node.SupportRequestSimplify 16385 []) []).1,
   (second_argument_read_is_in_range
      (Node.SupportRequestSimplify 16385 [sampleRate, Node.Const sampleNullInt4]) []).2.2.1
      16385 [sampleRate, Node.Const sampleNullInt4] rfl rfl,
   (second_argument_read_is_in_range
      (Node.SupportRequestSimplify 16385 [sampleRate]) []).2.2.2
      16385 [sampleRate] [Node.Const sampleNullInt4] rfl (by decide) rfl⟩

/-! ## Inspecting the second argument -/

/-- C8: for every Simplify request with exactly two arguments whose second
argument is a `Const` of a declared type other than `INT4OID`, the function
emits one WARNING and returns "no simplification", whether or not the null flag
of the constant is set. -/
theorem wrong_type_constant_is_warned (funcid : Oid) (args : List Node) (c : Const)
    (log : List ErrorData)
    (hlen : list_length args = 2) (hsecond : args.get? 1 = some (Node.Const c))
    (htype : c.consttype ≠ INT4OID) :
    (commission_cents_support (Node.SupportRequestSimplify funcid args)).run log
      = Except.ok (NULL, log ++ [
          { elevel := ErrLevel.WARNING,
            message := "commission_cents_support called with non-INT4 parameter" }]) := by
  obtain ⟨a1, rfl⟩ := args_two hlen hsecond
  exact support_wrong_type funcid a1 c log htype

/-- Witness of C8: the call `commission_cents(0.05, NULL::text)`, a null
constant of the wrong type. -/
theorem wrong_type_constant_is_warned_witness :
    sampleNullText.constisnull = true ∧
    (commission_cents_support
        (Node.SupportRequestSimplify 16385 [sampleRate, Node.Const sampleNullText])).run []
      = Except.ok (NULL, [] ++ [
          { elevel := ErrLevel.WARNING,
            message := "commission_cents_support called with non-INT4 parameter" }]) :=
  ⟨rfl, wrong_type_constant_is_warned 16385 [sampleRate, Node.Const sampleNullText]
    sampleNullText [] rfl rfl (by decide)⟩

/-- C9: for every Simplify request with exactly two arguments whose second
argument is a `Const` of type `INT4OID` with the null flag not set, whatever
value the constant holds, the function returns "no simplification" and emits
one diagnostic, of level NOTICE. -/
theorem non_null_int4_constant_is_kept (funcid : Oid) (args : List Node) (c : Const)
    (log : List ErrorData)
    (hlen : list_length args = 2) (hsecond : args.get? 1 = some (Node.Const c))
    (htype : c.consttype = INT4OID) (hnull : c.constisnull = false) :
    (commission_cents_support (Node.SupportRequestSimplify funcid args)).run log
      = Except.ok (NULL, log ++ [
          { elevel := ErrLevel.NOTICE,
            message := "commission_cents_support called with non-constant parameter" }]) := by
  obtain ⟨a1, rfl⟩ := args_two hlen hsecond
  exact support_not_null funcid a1 c log htype hnull

/-- Witness of C9: the call `commission_cents(0.05, 42)`. -/
theorem non_null_int4_constant_is_kept_witness :
    sampleInt4.constvalue = 42 ∧
    (commission_cents_support
        (Node.SupportRequestSimplify 16385 [sampleRate, Node.Const sampleInt4])).run []
      = Except.ok (NULL, [] ++ [
          { elevel := ErrLevel.NOTICE,
            message := "commission_cents_support called with non-constant parameter" }]) :=
  ⟨rfl, non_null_int4_constant_is_kept 16385 [sampleRate, Node.Const sampleInt4]
    sampleInt4 [] rfl rfl rfl rfl⟩

/-- C10: for every Simplify request with exactly two arguments whose second
argument is not a `Const` node, the function returns "no simplification" and
emits one NOTICE saying that the parameter is non-constant; this holds for
every `Param` node, so a bound query parameter is not taken for a constant. -/
theorem non_constant_argument_is_kept (funcid : Oid) (args : List Node) (node : Node)
    (log : List ErrorData)
    (hlen : list_length args = 2) (hsecond : args.get? 1 = some node) :
    (nodeTag node ≠ NodeTag.T_Const →
      (commission_cents_support (Node.SupportRequestSimplify funcid args)).run log
        = Except.ok (NULL, log ++ [
            { elevel := ErrLevel.NOTICE,
              message := "commission_cents_support called with non-constant parameter" }])) ∧
    (∀ (paramkind : ParamKind) (paramid : Int) (paramtype : Oid),
      node = Node.Param paramkind paramid paramtype →
      (commission_cents_support (Node.SupportRequestSimplify funcid args)).run log
        = Except.ok (NULL, log ++ [
            { elevel := ErrLevel.NOTICE,
              message := "commission_cents_support called with non-constant parameter" }])) := by
  obtain ⟨a1, rfl⟩ := args_two hlen hsecond
  refine ⟨fun h => support_not_const funcid a1 node log h, ?_⟩
  intro paramkind paramid paramtype hnode
  subst hnode
  exact support_not_const funcid a1 _ log (by simp [nodeTag])

/-- Witness of C10: the call `commission_cents(0.05, $1)` with a bound
parameter of type `integer`. -/
theorem non_constant_argument_is_kept_witness :
    (commission_cents_support
        (Node.SupportRequestSimplify 16385
          [sampleRate, Node.Param ParamKind.PARAM_EXTERN 1 INT4OID])).run []
      = Except.ok (NULL, [] ++ [
          { elevel := ErrLevel.NOTICE,
            message := "commission_cents_support called with non-constant parameter" }]) :=
  (non_constant_argument_is_kept 16385
      [sampleRate, Node.Param ParamKind.PARAM_EXTERN 1 INT4OID]
      (Node.Param ParamKind.PARAM_EXTERN 1 INT4OID) [] rfl rfl).1 (by decide)

/-! ## The shapes a request can have -/

theorem request_shapes (rawreq : Node) :
    nodeTag rawreq ≠ NodeTag.T_SupportRequestSimplify ∨
    (∃ funcid args, rawreq = Node.SupportRequestSimplify funcid args ∧ args.length ≠ 2) ∨
    (∃ funcid a1 node, rawreq = Node.SupportRequestSimplify funcid [a1, node] ∧
      nodeTag node ≠ NodeTag.T_Const) ∨
    (∃ funcid a1 c, rawreq = Node.SupportRequestSimplify funcid [a1, Node.Const c] ∧
      c.consttype ≠ INT4OID) ∨
    (∃ funcid a1 c, rawreq = Node.SupportRequestSimplify funcid [a1, Node.Const c] ∧
      c.consttype = INT4OID ∧ c.constisnull = false) ∨
    (∃ funcid a1 c, rawreq = Node.SupportRequestSimplify funcid [a1, Node.Const c] ∧
      c.consttype = INT4OID ∧ c.constisnull = true) := by
  by_cases htag : nodeTag rawreq = NodeTag.T_SupportRequestSimplify
  · obtain ⟨fid, args, rfl⟩ := simplify_of_tag htag
    by_cases hlen : args.length = 2
    · match args, hlen with
      | [b1, node], _ =>
        by_cases hc : nodeTag node = NodeTag.T_Const
        · obtain ⟨c, rfl⟩ := const_of_tag hc
          by_cases ht : c.consttype = INT4OID
          · cases hn : c.constisnull
            · exact Or.inr (Or.inr (Or.inr (Or.inr (Or.inl ⟨fid, b1, c, rfl, ht, hn⟩))))
            · exact Or.inr (Or.inr (Or.inr (Or.inr (Or.inr ⟨fid, b1, c, rfl, ht, hn⟩))))
          · exact Or.inr (Or.inr (Or.inr (Or.inl ⟨fid, b1, c, rfl, ht⟩)))
        · exact Or.inr (Or.inr (Or.inl ⟨fid, b1, node, rfl, hc⟩))
    · exact Or.inr (Or.inl ⟨fid, args, rfl, hlen⟩)
  · exact Or.inl htag

theorem run_twice (rawreq : Node) (ret : Option Node) (ds log : List ErrorData)
    (h : ∀ log0, (commission_cents_support rawreq).run log0 = Except.ok (ret, log0 ++ ds)) :
    (invoke_twice rawreq).run log = Except.ok ((ret, ret), log ++ ds ++ ds) := by
  simp only [invoke_twice, StateT.run_bind, h]
  rfl

/-- Every request has one outcome, whatever the log held before: a returned
pointer and a list of emitted diagnostics. -/
theorem support_outcome (rawreq : Node) :
    ∃ (ret : Option Node) (ds : List ErrorData), ∀ log0,
      (commission_cents_support rawreq).run log0 = Except.ok (ret, log0 ++ ds) := by
  rcases request_shapes rawreq with h | ⟨fid, args, rfl, h⟩ | ⟨fid, a1, node, rfl, h⟩ |
    ⟨fid, a1, c, rfl, h⟩ | ⟨fid, a1, c, rfl, h, hn⟩ | ⟨fid, a1, c, rfl, h, hn⟩
  · exact ⟨NULL, [], fun log0 => by simpa using support_other_request rawreq log0 h⟩
  · exact ⟨_, _, fun log0 => support_arity fid args log0 h⟩
  · exact ⟨_, _, fun log0 => support_not_const fid a1 node log0 h⟩
  · exact ⟨_, _, fun log0 => support_wrong_type fid a1 c log0 h⟩
  · exact ⟨_, _, fun log0 => support_not_null fid a1 c log0 h hn⟩
  · exact ⟨_, _, fun log0 => support_null fid a1 c log0 h hn⟩

/-! ## Independence of the rate argument -/

/-- C11: the rate argument is not inspected.  Two Simplify requests for
two-argument calls that have the same second argument and any two first
arguments give the same returned pointer and the same diagnostics. -/
theorem rate_argument_is_not_inspected (funcid : Oid) (rate1 rate2 second : Node)
    (log : List ErrorData) :
    (commission_cents_support (Node.SupportRequestSimplify funcid [rate1, second])).run log
      = (commission_cents_support (Node.SupportRequestSimplify funcid [rate2, second])).run log := by
  by_cases hc : nodeTag second = NodeTag.T_Const
  · obtain ⟨c, rfl⟩ := const_of_tag hc
    by_cases ht : c.consttype = INT4OID
    · cases hn : c.constisnull
      · rw [support_not_null funcid rate1 c log ht hn, support_not_null funcid rate2 c log ht hn]
      · rw [support_null funcid rate1 c log ht hn, support_null funcid rate2 c log ht hn]
    · rw [support_wrong_type funcid rate1 c log ht, support_wrong_type funcid rate2 c log ht]
  · rw [support_not_const funcid rate1 second log hc, support_not_const funcid rate2 second log hc]

/-- Instance of C11: the rate `0.05` and a NULL rate of type `text`, each with
`NULL::int` as salesperson, are both replaced by zero. -/
theorem rate_argument_is_not_inspected_witness :
    (commission_cents_support
        (Node.SupportRequestSimplify 16385 [sampleRate, Node.Const sampleNullInt4])).run []
      = (commission_cents_support
        (Node.SupportRequestSimplify 16385
          [Node.Const sampleNullText, Node.Const sampleNullInt4])).run [] :=
  rate_argument_is_not_inspected 16385 sampleRate (Node.Const sampleNullText)
    (Node.Const sampleNullInt4) []

/-! ## Determinism -/

/-- C12: invoking the function twice on the same request gives twice the same
returned pointer and twice the same diagnostics, and the outcome of an
invocation does not depend on what was logged before it.  A replacement that is
returned is a `Const` node, not a function call, and the function offered that
node returns `NULL` without a diagnostic. -/
theorem invocation_is_repeatable (rawreq : Node) (log : List ErrorData) :
    ∃ (ret : Option Node) (ds : List ErrorData),
      (∀ log0, (commission_cents_support rawreq).run log0 = Except.ok (ret, log0 ++ ds)) ∧
      (invoke_twice rawreq).run log = Except.ok ((ret, ret), log ++ ds ++ ds) ∧
      (∀ r : Node, ret = some r →
        nodeTag r = NodeTag.T_Const ∧ nodeTag r ≠ NodeTag.T_FuncExpr ∧
        ∀ log0, (commission_cents_support r).run log0 = Except.ok (NULL, log0)) := by
  obtain ⟨ret, ds, h⟩ := support_outcome rawreq
  refine ⟨ret, ds, h, run_twice rawreq ret ds log h, ?_⟩
  intro r hr
  subst hr
  have hconst : nodeTag r = NodeTag.T_Const := by
    rcases request_shapes rawreq with h1 | ⟨fid, args, rfl, h1⟩ | ⟨fid, a1, node, rfl, h1⟩ |
      ⟨fid, a1, c, rfl, h1⟩ | ⟨fid, a1, c, rfl, h1, hn⟩ | ⟨fid, a1, c, rfl, h1, hn⟩
    · have := (support_other_request rawreq [] h1).symm.trans (h [])
      simp [NULL] at this
    · have := (support_arity fid args [] h1).symm.trans (h [])
      simp [NULL] at this
    · have := (support_not_const fid a1 node [] h1).symm.trans (h [])
      simp [NULL] at this
    · have := (support_wrong_type fid a1 c [] h1).symm.trans (h [])
      simp [NULL] at this
    · have := (support_not_null fid a1 c [] h1 hn).symm.trans (h [])
      simp [NULL] at this
    · have := (support_null fid a1 c [] h1 hn).symm.trans (h [])
      simp at this
      rw [← this.1]
      rfl
  refine ⟨hconst, by rw [hconst]; decide, fun log0 => ?_⟩
  exact support_other_request r log0 (by rw [hconst]; decide)

/-- Witness of C12: `commission_cents(0.05, NULL::int)` offered twice gives the
zero constant twice and the inlining notice twice; the zero constant is a
`Const`, and offered to the function it gives `NULL`. -/
theorem invocation_is_repeatable_witness :
    (invoke_twice
        (Node.SupportRequestSimplify 16385 [sampleRate, Node.Const sampleNullInt4])).run []
      = Except.ok ((some (Node.Const zeroInt4), some (Node.Const zeroInt4)),
          [{ elevel := ErrLevel.NOTICE,
             message := "commission_cents_support inlining a constant zero" },
           { elevel := ErrLevel.NOTICE,
             message := "commission_cents_support inlining a constant zero" }]) ∧
    nodeTag (Node.Const zeroInt4) = NodeTag.T_Const ∧
    (commission_cents_support (Node.Const zeroInt4)).run [] = Except.ok (NULL, []) := by
  obtain ⟨ret, ds, h, h2, h3⟩ := invocation_is_repeatable
    (Node.SupportRequestSimplify 16385 [sampleRate, Node.Const sampleNullInt4]) []
  have hrun := (support_null 16385 sampleRate sampleNullInt4 [] rfl rfl).symm.trans (h [])
  simp at hrun
  obtain ⟨hret, hds⟩ := hrun
  subst hret
  subst hds
  exact ⟨h2, (h3 _ rfl).1, (h3 _ rfl).2.2 []⟩

/-! ## No hard failure -/

/-- C13: on every request, of any kind, arity and argument shapes, the
function returns normally; what it returns is `NULL` or the zero constant of
type `INT4OID`; and every diagnostic it emits has level WARNING or NOTICE, which
ranks below ERROR. -/
theorem no_hard_failure (rawreq : Node) (log : List ErrorData) :
    ∃ (ret : Option Node) (ds : List ErrorData),
      (commission_cents_support rawreq).run log = Except.ok (ret, log ++ ds) ∧
      (ret = NULL ∨
        ret = some (Node.Const
          { consttype := INT4OID, consttypmod := -1, constcollid := 0, constlen := 4,
            constvalue := 0, constisnull := false, constbyval := true, location := -1 })) ∧
      ∀ d ∈ ds, (d.elevel = ErrLevel.WARNING ∨ d.elevel = ErrLevel.NOTICE) ∧
        d.elevel.severity < ErrLevel.ERROR.severity := by
  rcases request_shapes rawreq with h | ⟨fid, args, rfl, h⟩ | ⟨fid, a1, node, rfl, h⟩ |
    ⟨fid, a1, c, rfl, h⟩ | ⟨fid, a1, c, rfl, h, hn⟩ | ⟨fid, a1, c, rfl, h, hn⟩
  · refine ⟨NULL, [], by simpa using support_other_request rawreq log h, Or.inl rfl, ?_⟩
    intro d hd
    simp at hd
  · refine ⟨_, _, support_arity fid args log h, Or.inl rfl, ?_⟩
    intro d hd
    simp at hd
    subst hd
    exact ⟨Or.inl rfl, by simp [ErrLevel.severity]⟩
  · refine ⟨_, _, support_not_const fid a1 node log h, Or.inl rfl, ?_⟩
    intro d hd
    simp at hd
    subst hd
    exact ⟨Or.inr rfl, by simp [ErrLevel.severity]⟩
  · refine ⟨_, _, support_wrong_type fid a1 c log h, Or.inl rfl, ?_⟩
    intro d hd
    simp at hd
    subst hd
    exact ⟨Or.inl rfl, by simp [ErrLevel.severity]⟩
  · refine ⟨_, _, support_not_null fid a1 c log h hn, Or.inl rfl, ?_⟩
    intro d hd
    simp at hd
    subst hd
    exact ⟨Or.inr rfl, by simp [ErrLevel.severity]⟩
  · refine ⟨_, _, support_null fid a1 c log h hn, Or.inr rfl, ?_⟩
    intro d hd
    simp at hd
    subst hd
    exact ⟨Or.inr rfl, by simp [ErrLevel.severity]⟩

/-! ## Independence of the payload of the constant -/

/-- C14: the decision depends on the type and the null flag of the constant
alone.  Two Simplify requests for two-argument calls whose second arguments are
`Const` nodes with the same declared type and the same null flag, and any
value, typmod, collation, length, by-value flag and location, give the same
returned pointer and the same diagnostics. -/
theorem constant_payload_is_not_read (funcid : Oid) (a1 : Node) (c1 c2 : Const)
    (log : List ErrorData)
    (htype : c1.consttype = c2.consttype) (hnull : c1.constisnull = c2.constisnull) :
    (commission_cents_support (Node.SupportRequestSimplify funcid [a1, Node.Const c1])).run log
      = (commission_cents_support
          (Node.SupportRequestSimplify funcid [a1, Node.Const c2])).run log := by
  by_cases ht : c1.consttype = INT4OID
  · have ht2 : c2.consttype = INT4OID := htype ▸ ht
    cases hn : c1.constisnull
    · have hn2 : c2.constisnull = false := hnull ▸ hn
      rw [support_not_null funcid a1 c1 log ht hn, support_not_null funcid a1 c2 log ht2 hn2]
    · have hn2 : c2.constisnull = true := hnull ▸ hn
      rw [support_null funcid a1 c1 log ht hn, support_null funcid a1 c2 log ht2 hn2]
  · have ht2 : c2.consttype ≠ INT4OID := htype ▸ ht
    rw [support_wrong_type funcid a1 c1 log ht, support_wrong_type funcid a1 c2 log ht2]

/-- Witness of C14: two null `INT4OID` constants that differ in every other
field. -/
theorem constant_payload_is_not_read_witness :
    sampleNullInt4.constvalue ≠ sampleNullInt4Other.constvalue ∧
    (commission_cents_support
        (Node.SupportRequestSimplify 16385 [sampleRate, Node.Const sampleNullInt4])).run []
      = (commission_cents_support
        (Node.SupportRequestSimplify 16385 [sampleRate, Node.Const sampleNullInt4Other])).run [] :=
  ⟨by decide,
   constant_payload_is_not_read 16385 sampleRate sampleNullInt4 sampleNullInt4Other [] rfl rfl⟩

/-- Witness of C13: a one-argument call, which is a wiring mistake and still
returns normally. -/
theorem no_hard_failure_witness :
    ∃ (ret : Option Node) (ds : List ErrorData),
      (commission_cents_support (Node.SupportRequestSimplify 16385 [sampleRate])).run []
        = Except.ok (ret, [] ++ ds) ∧
      (ret = NULL ∨
        ret = some (Node.Const
          { consttype := INT4OID, consttypmod := -1, constcollid := 0, constlen := 4,
            constvalue := 0, constisnull := false, constbyval := true, location := -1 })) ∧
      ∀ d ∈ ds, (d.elevel = ErrLevel.WARNING ∨ d.elevel = ErrLevel.NOTICE) ∧
        d.elevel.severity < ErrLevel.ERROR.severity :=
  no_hard_failure (Node.SupportRequestSimplify 16385 [sampleRate]) []

/-! ## Severity of the diagnostic, branch by branch -/

/-- C15: on a Simplify request the function emits a diagnostic of level WARNING
exactly when the call does not have two arguments or its second argument is a
`Const` whose type is not `INT4OID`; in every other case (second argument not
a constant, a non-null `INT4OID` constant, a null `INT4OID` constant) the
diagnostic emitted has level NOTICE. -/
theorem severity_follows_branch (funcid : Oid) (args : List Node) (log : List ErrorData) :
    ∃ (ret : Option Node) (d : ErrorData),
      (commission_cents_support (Node.SupportRequestSimplify funcid args)).run log
        = Except.ok (ret, log ++ [d]) ∧
      (d.elevel = ErrLevel.WARNING ↔
        (list_length args ≠ 2 ∨
          ∃ c, args.get? 1 = some (Node.Const c) ∧ c.consttype ≠ INT4OID)) ∧
      (¬ (list_length args ≠ 2 ∨
          ∃ c, args.get? 1 = some (Node.Const c) ∧ c.consttype ≠ INT4OID) →
        d.elevel = ErrLevel.NOTICE) := by
  by_cases hlen : args.length = 2
  · match args, hlen with
    | [a1, node], _ =>
      by_cases hc : nodeTag node = NodeTag.T_Const
      · obtain ⟨c, rfl⟩ := const_of_tag hc
        by_cases ht : c.consttype = INT4OID
        · have hcond : ¬ (list_length [a1, Node.Const c] ≠ 2 ∨
              ∃ c2, [a1, Node.Const c].get? 1 = some (Node.Const c2) ∧
                c2.consttype ≠ INT4OID) := by
            rintro (h | ⟨c2, h2, h3⟩)
            · exact h rfl
            · simp at h2
              subst h2
              exact h3 ht
          cases hn : c.constisnull
          · refine ⟨_, _, support_not_null funcid a1 c log ht hn, ?_, fun _ => rfl⟩
            exact ⟨fun h => by simp at h, fun h => absurd h hcond⟩
          · refine ⟨_, _, support_null funcid a1 c log ht hn, ?_, fun _ => rfl⟩
            exact ⟨fun h => by simp at h, fun h => absurd h hcond⟩
        · refine ⟨_, _, support_wrong_type funcid a1 c log ht, ?_, ?_⟩
          · exact ⟨fun _ => Or.inr ⟨c, rfl, ht⟩, fun _ => rfl⟩
          · intro h
            exact absurd (Or.inr ⟨c, rfl, ht⟩) h
      · have hcond : ¬ (list_length [a1, node] ≠ 2 ∨
            ∃ c2, [a1, node].get? 1 = some (Node.Const c2) ∧ c2.consttype ≠ INT4OID) := by
          rintro (h | ⟨c2, h2, _⟩)
          · exact h rfl
          · simp at h2
            subst h2
            exact hc rfl
        refine ⟨_, _, support_not_const funcid a1 node log hc, ?_, fun _ => rfl⟩
        exact ⟨fun h => by simp at h, fun h => absurd h hcond⟩
  · refine ⟨_, _, support_arity funcid args log hlen, ?_, ?_⟩
    · exact ⟨fun _ => Or.inl hlen, fun _ => rfl⟩
    · intro h
      exact absurd (Or.inl hlen) h

/-- Witness of C15: `commission_cents(0.05, 42)` meets neither warning
condition, and its diagnostic has level NOTICE. -/
theorem severity_follows_branch_witness :
    ∃ (ret : Option Node) (d : ErrorData),
      (commission_cents_support
          (Node.SupportRequestSimplify 16385 [sampleRate, Node.Const sampleInt4])).run []
        = Except.ok (ret, [] ++ [d]) ∧ d.elevel = ErrLevel.NOTICE := by
  obtain ⟨ret, d, hrun, _, hnotice⟩ := severity_follows_branch 16385
    [sampleRate, Node.Const sampleInt4] []
  refine ⟨ret, d, hrun, hnotice ?_⟩
  rintro (h | ⟨c, h2, h3⟩)
  · exact h rfl
  · simp at h2
    subst h2
    exact h3 rfl

/-! ## One diagnostic per exit -/

/-- C16: an invocation on a Simplify request emits exactly one diagnostic and
an invocation on any other request emits none; when a replacement is returned
the one diagnostic is the notice that a constant zero is inlined, and the
notice about a non-constant parameter is not emitted with it. -/
theorem one_diagnostic_per_exit (rawreq : Node) (log : List ErrorData) :
    ∃ (ret : Option Node) (ds : List ErrorData),
      (commission_cents_support rawreq).run log = Except.ok (ret, log ++ ds) ∧
      (nodeTag rawreq = NodeTag.T_SupportRequestSimplify → ds.length = 1) ∧
      (nodeTag rawreq ≠ NodeTag.T_SupportRequestSimplify → ds.length = 0) ∧
      (ret ≠ NULL →
        ds = [
          { elevel := ErrLevel.NOTICE,
            message := "commission_cents_support inlining a constant zero" }] ∧
        ({ elevel := ErrLevel.NOTICE,
           message := "commission_cents_support called with non-constant parameter" }
          : ErrorData) ∉ ds) := by
  rcases request_shapes rawreq with h | ⟨fid, args, rfl, h⟩ | ⟨fid, a1, node, rfl, h⟩ |
    ⟨fid, a1, c, rfl, h⟩ | ⟨fid, a1, c, rfl, h, hn⟩ | ⟨fid, a1, c, rfl, h, hn⟩
  · exact ⟨NULL, [], by simpa using support_other_request rawreq log h,
      fun ht => absurd ht h, fun _ => rfl, fun hr => absurd rfl hr⟩
  · exact ⟨_, _, support_arity fid args log h,
      fun _ => rfl, fun ht => absurd rfl ht, fun hr => absurd rfl hr⟩
  · exact ⟨_, _, support_not_const fid a1 node log h,
      fun _ => rfl, fun ht => absurd rfl ht, fun hr => absurd rfl hr⟩
  · exact ⟨_, _, support_wrong_type fid a1 c log h,
      fun _ => rfl, fun ht => absurd rfl ht, fun hr => absurd rfl hr⟩
  · exact ⟨_, _, support_not_null fid a1 c log h hn,
      fun _ => rfl, fun ht => absurd rfl ht, fun hr => absurd rfl hr⟩
  · exact ⟨_, _, support_null fid a1 c log h hn,
      fun _ => rfl, fun ht => absurd rfl ht, fun _ => ⟨rfl, by decide⟩⟩

/-- Witness of C16: `commission_cents(0.05, NULL::int)` after two earlier log
entries: one diagnostic is added. -/
theorem one_diagnostic_per_exit_witness :
    ∃ (ret : Option Node) (ds : List ErrorData),
      (commission_cents_support
          (Node.SupportRequestSimplify 16385 [sampleRate, Node.Const sampleNullInt4])).run
          [{ elevel := ErrLevel.LOG, message := "statement: select" },
           { elevel := ErrLevel.LOG, message := "duration: 1 ms" }]
        = Except.ok (ret,
            [{ elevel := ErrLevel.LOG, message := "statement: select" },
             { elevel := ErrLevel.LOG, message := "duration: 1 ms" }] ++ ds) ∧
      ds.length = 1 := by
  obtain ⟨ret, ds, hrun, hone, _, _⟩ := one_diagnostic_per_exit
    (Node.SupportRequestSimplify 16385 [sampleRate, Node.Const sampleNullInt4])
    [{ elevel := ErrLevel.LOG, message := "statement: select" },
     { elevel := ErrLevel.LOG, message := "duration: 1 ms" }]
  exact ⟨ret, ds, hrun, hone rfl⟩

/-! ## A non-null constant is treated as a non-constant -/

/-- C17: a Simplify request with two arguments whose second argument is a
non-null `INT4OID` constant gives the same returned pointer and the same
diagnostic as a request whose second argument is not a `Const`: `NULL` and the
one NOTICE "commission_cents_support called with non-constant parameter". -/
theorem non_null_constant_reported_as_non_constant (funcid : Oid) (a1 a2 : Node)
    (c : Const) (node : Node) (log : List ErrorData)
    (htype : c.consttype = INT4OID) (hnull : c.constisnull = false)
    (hnode : nodeTag node ≠ NodeTag.T_Const) :
    (commission_cents_support (Node.SupportRequestSimplify funcid [a1, Node.Const c])).run log
      = (commission_cents_support (Node.SupportRequestSimplify funcid [a2, node])).run log ∧
    (commission_cents_support (Node.SupportRequestSimplify funcid [a1, Node.Const c])).run log
      = Except.ok (NULL, log ++ [
          { elevel := ErrLevel.NOTICE,
            message := "commission_cents_support called with non-constant parameter" }]) := by
  rw [support_not_null funcid a1 c log htype hnull, support_not_const funcid a2 node log hnode]
  exact ⟨rfl, rfl⟩

/-- Witness of C17: `commission_cents(0.05, 42)` and `commission_cents(0.05, s.id)`. -/
theorem non_null_constant_reported_as_non_constant_witness :
    (commission_cents_support
        (Node.SupportRequestSimplify 16385 [sampleRate, Node.Const sampleInt4])).run []
      = (commission_cents_support
        (Node.SupportRequestSimplify 16385 [sampleRate, sampleColumn])).run [] ∧
    (commission_cents_support
        (Node.SupportRequestSimplify 16385 [sampleRate, Node.Const sampleInt4])).run []
      = Except.ok (NULL, [] ++ [
          { elevel := ErrLevel.NOTICE,
            message := "commission_cents_support called with non-constant parameter" }]) :=
  non_null_constant_reported_as_non_constant 16385 sampleRate sampleRate sampleInt4
    sampleColumn [] rfl rfl (by decide)

end CommissionCents
